import Mathlib

/-!
Verification of the GeoJSON batch-submission pipeline in
`geojson_api_tool.py` (DaWarIchMapSnapper).

The Python source is shallowly embedded: JSON documents become the
inductive type `JVal`; the relevant Python built-ins (`len`, indexing,
truthiness, `float`, `dict.get`, iteration) become explicit functions on
`JVal` that return `Except PyErr _` where the Python original can raise;
the HTTP transport and the wall clock are passed in as explicit
parameters (`PostResult` outcomes per attempt, a `now` timestamp); file
writes, sleeps and log lines become data accumulated in the result.
-/

deriving instance DecidableEq for Except

/-- A JSON value, the data model of all documents the tool handles. -/
inductive JVal where
  | null : JVal
  | jbool (b : Bool) : JVal
  | jnum (q : ℚ) : JVal
  | jstr (s : String) : JVal
  | jarr (xs : List JVal) : JVal
  | jobj (fields : List (String × JVal)) : JVal

/-- Python exception kinds that the embedded fragments can raise. -/
inductive PyErr where
  | valueError (m : String) : PyErr
  | typeError (m : String) : PyErr
  | attributeError (m : String) : PyErr

deriving DecidableEq

/-- Python truthiness (`bool(v)`) for JSON values. -/
def pyTruthy : JVal → Bool
  | .null => false
  | .jbool b => b
  | .jnum q => decide (q ≠ 0)
  | .jstr s => decide (s ≠ "")
  | .jarr [] => false
  | .jarr (_ :: _) => true
  | .jobj [] => false
  | .jobj (_ :: _) => true

/-- Python `v.get(k)` (dict lookup defaulting to `None`); raises
`AttributeError` on non-dicts. -/
def pyGet (v : JVal) (k : String) : Except PyErr JVal :=
  match v with
  | .jobj fs => .ok ((fs.lookup k).getD .null)
  | _ => .error (.attributeError "get")

/-- Python `v.get(k, d)` with an explicit default.  In the embedded code
this is only reached after a plain `pyGet` on the same value succeeded,
so the non-dict branch is dead; it returns the default. -/
def pyGetD (v : JVal) (k : String) (d : JVal) : JVal :=
  match v with
  | .jobj fs => (fs.lookup k).getD d
  | _ => d

/-- Python `len(v)`; raises `TypeError` for values without a length. -/
def pyLen (v : JVal) : Except PyErr ℕ :=
  match v with
  | .jarr xs => .ok xs.length
  | .jstr s => .ok s.length
  | .jobj fs => .ok fs.length
  | _ => .error (.typeError "len")

/-- Python `v[n]` for a natural index.  The embedded code only indexes
after a successful length check, so the in-bounds access is total for
sequences; dicts raise (`KeyError`, folded into `TypeError` here since
both reach the same catch-all handler), as do non-subscriptables. -/
def pyIdx (v : JVal) (n : ℕ) : Except PyErr JVal :=
  match v with
  | .jarr xs => .ok (xs.getD n .null)
  | .jstr s => .ok (.jstr (String.mk [s.data.getD n ' ']))
  | _ => .error (.typeError "subscript")

/-- Python `for x in v`: lists yield elements, strings one-character
strings, dicts their keys; other values raise `TypeError`. -/
def pyIterate (v : JVal) : Except PyErr (List JVal) :=
  match v with
  | .jarr xs => .ok xs
  | .jstr s => .ok (s.data.map (fun c => .jstr (String.mk [c])))
  | .jobj fs => .ok (fs.map (fun kv => .jstr kv.1))
  | _ => .error (.typeError "iter")

/-- Digits of a decimal numeral to a natural number (`none` on a
non-digit). -/
def digitsToNat (cs : List Char) : Option ℕ :=
  cs.foldl
    (fun acc c =>
      match acc with
      | none => none
      | some a => if c.isDigit then some (a * 10 + (c.toNat - 48)) else none)
    (some 0)

/-- Python `float(s)` on a string, for plain decimal literals
(optional sign, digits, optional fractional part).  Exponents,
`inf`/`nan` and surrounding whitespace are not modelled; such strings
are treated as unparsable. -/
def parseDecimal (s : String) : Option ℚ :=
  let sgnBody : ℚ × String :=
    match s.data with
    | '-' :: r => (-1, String.mk r)
    | '+' :: r => (1, String.mk r)
    | _ => (1, s)
  match (sgnBody.2.splitOn ".") with
  | [ip] =>
    if ip.length = 0 then none
    else
      match digitsToNat ip.data with
      | some v => some (sgnBody.1 * v)
      | none => none
  | [ip, fp] =>
    if ip.length = 0 ∧ fp.length = 0 then none
    else
      match digitsToNat ip.data, digitsToNat fp.data with
      | some iv, some fv =>
        some (sgnBody.1 * ((iv : ℚ) + (fv : ℚ) / ((10 : ℚ) ^ fp.length)))
      | _, _ => none
  | _ => none

/-- Python `float(v)`: numbers pass through, booleans become 0/1
(`bool` is an `int` subclass), decimal strings parse, everything else
raises. -/
def pyFloat (v : JVal) : Except PyErr ℚ :=
  match v with
  | .jnum q => .ok q
  | .jbool b => .ok (if b then 1 else 0)
  | .jstr s =>
    match parseDecimal s with
    | some q => .ok q
    | none => .error (.valueError "float")
  | _ => .error (.typeError "float")

-- Constants from the configuration header of `geojson_api_tool.py`.
def MAPMATCH_MODE : String := "drive"

def MAX_WAYPOINTS_PER_REQUEST : ℕ := 1000

def DELAY_BETWEEN_BATCHES_SEC : ℚ := 0.25

def API_RETRIES : ℕ := 3

def RETRY_DELAY_SEC : ℕ := 3

/-- `build_request_url`: appends `apiKey` as a query parameter, using
`&` when the base URL already has a query string and `?` otherwise. -/
def build_request_url (api_url api_key : String) : String :=
  let sep := if api_url.contains '?' then "&" else "?"
  api_url ++ sep ++ "apiKey=" ++ api_key

-- Timestamp formatting (`_timestamp_to_iso`).
/-- Zero-padded two-digit rendering. -/
def pad2 (n : ℕ) : String :=
  if n < 10 then "0" ++ toString n else toString n

/-- Zero-padded four-digit rendering of a year. -/
def pad4 (z : ℤ) : String :=
  if z < 0 then "-" ++ toString (-z)
  else if z < 10 then "000" ++ toString z
  else if z < 100 then "00" ++ toString z
  else if z < 1000 then "0" ++ toString z
  else toString z

/-- Proleptic Gregorian civil date (year, month, day) from a count of
days since 1970-01-01 (the standard era-based algorithm, as used by
CPython's date conversion). -/
def civilFromDays (z0 : ℤ) : ℤ × ℕ × ℕ :=
  let z := z0 + 719468
  let era : ℤ := Int.fdiv z 146097
  let doe : ℕ := (z - era * 146097).toNat
  let yoe : ℕ := (doe - doe / 1460 + doe / 36524 - doe / 146096) / 365
  let y : ℤ := (yoe : ℤ) + era * 400
  let doy : ℕ := doe - (365 * yoe + yoe / 4 - yoe / 100)
  let mp : ℕ := (5 * doy + 2) / 153
  let d : ℕ := doy - (153 * mp + 2) / 5 + 1
  let m : ℕ := if mp < 10 then mp + 3 else mp - 9
  (if m ≤ 2 then y + 1 else y, m, d)

/-- Renders a whole number of Unix seconds as
`YYYY-MM-DDTHH:MM:SS.000Z`, the `strftime` format used by the tool. -/
def fmtUnixSeconds (s : ℤ) : String :=
  let days := Int.fdiv s 86400
  let sod := (Int.fmod s 86400).toNat
  let ymd := civilFromDays days
  pad4 ymd.1 ++ "-" ++ pad2 ymd.2.1 ++ "-" ++ pad2 ymd.2.2 ++ "T" ++
    pad2 (sod / 3600) ++ ":" ++ pad2 (sod % 3600 / 60) ++ ":" ++
    pad2 (sod % 60) ++ ".000Z"

/-- Whole seconds of `datetime.fromtimestamp(q)`: CPython rounds the
timestamp to microseconds first (ties are approximated by rounding
half up; no claim exercises a tie), then takes the floor.  Computed
directly on the numerator and denominator so that it reduces inside
the kernel: `floor(q * 10^6 + 1/2) = fdiv (2 * num * 10^6 + den) (2 * den)`. -/
def pyTimestampSeconds (q : ℚ) : ℤ :=
  Int.fdiv (Int.fdiv (2 * q.num * 1000000 + (q.den : ℤ)) (2 * (q.den : ℤ))) 1000000

/-- Fixed-format rendering of a rational Unix timestamp (the format
string prints no sub-second digits beyond the literal `.000`). -/
def fmtTimestamp (q : ℚ) : String :=
  fmtUnixSeconds (pyTimestampSeconds q)

/-- `_timestamp_to_iso`: numbers (and booleans, which are `int`s in
Python) are Unix seconds; strings pass through unvalidated; anything
else falls back to the current UTC time, passed in as `now`. -/
def timestamp_to_iso (now : ℚ) (ts : JVal) : String :=
  match ts with
  | .jnum q => fmtTimestamp q
  | .jbool b => fmtTimestamp (if b then 1 else 0)
  | .jstr s => s
  | _ => fmtTimestamp now

-- GeoJSON → waypoints (`geojson_to_mapmatch_body`).
/-- One entry of the request body's `waypoints` list. -/
structure Waypoint where
  timestamp : String
  location : ℚ × ℚ

deriving DecidableEq

instance : Inhabited Waypoint := ⟨⟨"", (0, 0)⟩⟩

/-- The request body `{"mode": ..., "waypoints": [...]}`. -/
structure MapMatchBody where
  mode : String
  waypoints : List Waypoint

deriving DecidableEq

/-- The timestamp selection
`props.get("timestamp") or props.get("t") or (i * 10)`:
Python `or` takes the first truthy operand. -/
def tsSelect (props : JVal) (i : ℕ) : Except PyErr JVal :=
  match pyGet props "timestamp" with
  | .error e => .error e
  | .ok a =>
    if pyTruthy a then .ok a
    else
      match pyGet props "t" with
      | .error e => .error e
      | .ok b => if pyTruthy b then .ok b else .ok (.jnum ((i * 10 : ℕ) : ℚ))

/-- The body of the `for i, f in enumerate(features)` loop of
`geojson_to_mapmatch_body`, with `i` the running original index. -/
def convertFeatures (now : ℚ) : ℕ → List JVal → Except PyErr (List Waypoint)
  | _, [] => .ok []
  | i, f :: rest =>
    match pyGet f "geometry" with
    | .error e => .error e
    | .ok g =>
      match pyGet (if pyTruthy g then g else .jobj []) "coordinates" with
      | .error e => .error e
      | .ok coords =>
        if ¬ pyTruthy coords then convertFeatures now (i + 1) rest
        else
          match pyLen coords with
          | .error e => .error e
          | .ok n =>
            if n < 2 then convertFeatures now (i + 1) rest
            else
              match pyIdx coords 0 with
              | .error e => .error e
              | .ok c0 =>
                match pyIdx coords 1 with
                | .error e => .error e
                | .ok c1 =>
                  match pyFloat c0 with
                  | .error e => .error e
                  | .ok lon =>
                    match pyFloat c1 with
                    | .error e => .error e
                    | .ok lat =>
                      match pyGet f "properties" with
                      | .error e => .error e
                      | .ok p =>
                        match tsSelect (if pyTruthy p then p else .jobj []) i with
                        | .error e => .error e
                        | .ok ts =>
                          match convertFeatures now (i + 1) rest with
                          | .error e => .error e
                          | .ok ws =>
                            .ok (⟨timestamp_to_iso now ts, (lon, lat)⟩ :: ws)

/-- `geojson_to_mapmatch_body`: `features = geojson.get("features") or []`,
then the conversion loop; the current time is an explicit parameter. -/
def geojson_to_mapmatch_body (now : ℚ) (geojson : JVal) :
    Except PyErr MapMatchBody :=
  match pyGet geojson "features" with
  | .error e => .error e
  | .ok fv =>
    match pyIterate (if pyTruthy fv then fv else .jarr []) with
    | .error e => .error e
    | .ok fs =>
      match convertFeatures now 0 fs with
      | .error e => .error e
      | .ok ws => .ok ⟨MAPMATCH_MODE, ws⟩

-- Response feature extraction (`_response_to_features`).
/-- The comparison `resp.get("type") == "Feature"`: only a string value
equal to `"Feature"` passes. -/
def isFeatureTag (v : JVal) : Bool :=
  match v with
  | .jstr s => decide (s = "Feature")
  | _ => false

/-- `_response_to_features`: a top-level `features` list verbatim, else
a single `Feature` document wrapped in a list, else a bare `geometry`
synthesized into a feature, else the empty list.  Non-dict responses
raise on the first `.get`. -/
def response_to_features (resp : JVal) : Except PyErr (List JVal) :=
  match resp with
  | .jobj fields =>
    match (fields.lookup "features").getD .null with
    | .jarr xs => .ok xs
    | _ =>
      if isFeatureTag ((fields.lookup "type").getD .null) then
        .ok [.jobj fields]
      else
        match fields.lookup "geometry" with
        | some g =>
          .ok [.jobj [("type", .jstr "Feature"), ("geometry", g),
                      ("properties", (fields.lookup "properties").getD (.jobj []))]]
        | none => .ok []
  | _ => .error (.attributeError "get")

-- The API client with retry (`send_to_api`).
/-- Progress-message severity accepted by the log callback. -/
inductive LogLevel where
  | info : LogLevel
  | error : LogLevel
  | success : LogLevel

deriving DecidableEq

/-- The failure modes `send_to_api` can surface, mirroring the Python
exception classes it raises: `requests.exceptions.HTTPError` (from
`raise_for_status`), the `RequestException` wrapping the last
connection error after exhausted retries, `json.JSONDecodeError` from
`resp.json()`, and any other `RequestException`. -/
inductive ApiError where
  | httpError (status : ℕ) (bodyText : String) : ApiError
  | requestException (m : String) : ApiError
  | jsonDecodeError (m : String) : ApiError
  | otherRequestError (m : String) : ApiError

deriving DecidableEq

/-- The outcome the transport produces for one `requests.post` call:
a `ConnectionError`/`OSError`, another `RequestException` (e.g. a read
timeout), or an HTTP response with status code, body text, and the
result of parsing the body as JSON (`none` models a body that is not
valid JSON). -/
inductive PostResult where
  | connError (m : String) : PostResult
  | otherReqError (m : String) : PostResult
  | response (status : ℕ) (bodyText : String) (json : Option JVal) : PostResult

/-- Whether an attempt outcome is a connection-level failure (the only
retried class). -/
def PostResult.isConn : PostResult → Bool
  | .connError _ => true
  | _ => false

/-- The message of a connection-level failure (empty for other
outcomes); used to state which error the final failure wraps. -/
def PostResult.connMsg : PostResult → String
  | .connError m => m
  | _ => ""

/-- Structured renderings of the log lines emitted by the tool; the
payloads carry exactly the data interpolated into the Python format
strings (attempt counters, status codes, the truncated response body,
exception messages). -/
inductive LogMsg where
  | inputPath (p : String) : LogMsg
  | readInfo (typ : JVal) (nFeatures : ℕ) : LogMsg
  | waypointsInfo (n : ℕ) : LogMsg
  | noValidPoints : LogMsg
  | batchStart (num total size : ℕ) : LogMsg
  | requestAttempt (attempt total : ℕ) (urlBase : String) : LogMsg
  | responseStatus (code : ℕ) : LogMsg
  | httpStatusErr (status : ℕ) : LogMsg
  | httpBodyText (truncated : String) : LogMsg
  | connectionFailed (attempt total : ℕ) (m : String) : LogMsg
  | retryWait (sec : ℕ) : LogMsg
  | requestFailed (m : String) : LogMsg
  | jsonDecodeFailed (m : String) : LogMsg
  | mergedInfo (n : ℕ) : LogMsg
  | requestCountInfo (n : ℕ) : LogMsg
  | savedTo (p : String) : LogMsg
  | fileNotFound (m : String) : LogMsg
  | invalidGeojson (m : String) : LogMsg
  | valueErrText (m : String) : LogMsg
  | apiErrText (e : ApiError) : LogMsg
  | genericErr (kind m : String) : LogMsg

/-- Everything one `send_to_api` call produces: the returned JSON or
the raised error, how many POST attempts were issued, the sleeps
performed (in seconds), and the log lines emitted, in order. -/
structure SendOutcome where
  result : Except ApiError JVal
  posts : ℕ
  sleeps : List ℚ
  log : List (LogMsg × LogLevel)

/-- The first segment of `url.split("?")`, logged before each POST. -/
def urlBaseOf (url : String) : String :=
  (url.splitOn "?").headD ""

/-- The attempt loop of `send_to_api`.  `attempt` is the 1-based
attempt counter of the Python `for attempt in range(1, API_RETRIES+1)`
loop; `remaining` is the number of attempts still allowed after this
one, kept in sync by the caller (`remaining = API_RETRIES - attempt`),
so that `remaining = 0` is exactly the `attempt < API_RETRIES` guard
failing.  Only connection-level failures recurse. -/
def sendFrom (world : ℕ → PostResult) (urlBase : String) :
    ℕ → ℕ → SendOutcome
  | attempt, remaining =>
    match world attempt with
    | .response st body mj =>
      let lg : List (LogMsg × LogLevel) :=
        [(.requestAttempt attempt API_RETRIES urlBase, .info),
         (.responseStatus st, .info)]
      if 400 ≤ st ∧ st < 600 then
        { result := .error (.httpError st body), posts := 1, sleeps := [],
          log := lg ++ [(.httpStatusErr st, .error)] ++
            (if body = "" then [] else [(.httpBodyText (body.take 500), .error)]) }
      else
        match mj with
        | some v => { result := .ok v, posts := 1, sleeps := [], log := lg }
        | none =>
          { result := .error (.jsonDecodeError body), posts := 1, sleeps := [],
            log := lg ++ [(.jsonDecodeFailed body, .error)] }
    | .otherReqError m =>
      { result := .error (.otherRequestError m), posts := 1, sleeps := [],
        log := [(.requestAttempt attempt API_RETRIES urlBase, .info),
                (.requestFailed m, .error)] }
    | .connError m =>
      match remaining with
      | r + 1 =>
        let rest := sendFrom world urlBase (attempt + 1) r
        { result := rest.result, posts := 1 + rest.posts,
          sleeps := ((RETRY_DELAY_SEC : ℕ) : ℚ) :: rest.sleeps,
          log := [(.requestAttempt attempt API_RETRIES urlBase, .info),
                  (.connectionFailed attempt API_RETRIES m, .error),
                  (.retryWait RETRY_DELAY_SEC, .info)] ++ rest.log }
      | 0 =>
        { result := .error (.requestException m), posts := 1, sleeps := [],
          log := [(.requestAttempt attempt API_RETRIES urlBase, .info),
                  (.connectionFailed attempt API_RETRIES m, .error)] }

/-- `send_to_api`: starts the loop at attempt 1 with `API_RETRIES - 1`
further attempts allowed.  The request body and full URL only reach
the transport, which is abstracted into `world`; the URL's prefix is
still needed for the request log line. -/
def send_to_api (world : ℕ → PostResult) (urlBase : String) : SendOutcome :=
  sendFrom world urlBase 1 (API_RETRIES - 1)

-- Batching (the chunking loop of `run_pipeline`).
/-- Fuel-driven body of `chunksOf`; the fuel starts at the list length
and strictly dominates it at every recursive call (for a positive
chunk size), so the `0, _ :: _` case is never reached from
`chunksOf`. -/
def chunksOfGo (M : ℕ) : ℕ → List Waypoint → List (List Waypoint)
  | _, [] => []
  | 0, _ :: _ => []
  | f + 1, x :: xs => ((x :: xs).take M) :: chunksOfGo M f ((x :: xs).drop M)

/-- The slices `waypoints[i : i + M]` for `i = 0, M, 2M, ...` of the
batching loop `for i in range(0, len(waypoints), MAX_WAYPOINTS_PER_REQUEST)`. -/
def chunksOf (M : ℕ) (xs : List Waypoint) : List (List Waypoint) :=
  chunksOfGo M xs.length xs

-- The pipeline orchestrator (`run_pipeline`).
/-- Failures of `read_geojson`: a missing file or unparsable JSON. -/
inductive ReadErr where
  | fileNotFound (m : String) : ReadErr
  | jsonDecode (m : String) : ReadErr

/-- Everything the `try` block of `run_pipeline` can raise. -/
inductive RunErr where
  | read (e : ReadErr) : RunErr
  | py (e : PyErr) : RunErr
  | api (e : ApiError) : RunErr

/-- Side effects accumulated during a run: files written (path and
document), POST attempts issued, `send_to_api` invocations (batches
submitted), sleeps performed, and log lines emitted. -/
structure Eff where
  writes : List (String × JVal)
  posts : ℕ
  batches : ℕ
  sleeps : List ℚ
  log : List (LogMsg × LogLevel)

/-- Sequential composition of effects. -/
def Eff.append (a b : Eff) : Eff :=
  ⟨a.writes ++ b.writes, a.posts + b.posts, a.batches + b.batches,
   a.sleeps ++ b.sleeps, a.log ++ b.log⟩

instance : Append Eff := ⟨Eff.append⟩

/-- The empty effect. -/
def emptyEff : Eff := ⟨[], 0, 0, [], []⟩

/-- An effect consisting only of log lines. -/
def logEff (l : List (LogMsg × LogLevel)) : Eff := ⟨[], 0, 0, [], l⟩

/-- The per-batch loop of `run_pipeline`: before every batch except the
first, sleep `DELAY_BETWEEN_BATCHES_SEC`; log the batch header; submit
via `send_to_api` (the transport for batch `b` is `world b`); extract
the response's features and accumulate them in order.  Any raised
error aborts the loop. -/
def batchLoop (world : ℕ → ℕ → PostResult) (urlBase : String) (total : ℕ) :
    ℕ → List (List Waypoint) → Except RunErr (List JVal) × Eff
  | _, [] => (.ok [], emptyEff)
  | bnum, c :: rest =>
    let preSleeps : List ℚ := if 1 < bnum then [DELAY_BETWEEN_BATCHES_SEC] else []
    let s := send_to_api (world bnum) urlBase
    let effHere : Eff :=
      { writes := [], posts := s.posts, batches := 1,
        sleeps := preSleeps ++ s.sleeps,
        log := [(.batchStart bnum total c.length, .info)] ++ s.log }
    match s.result with
    | .error e => (.error (.api e), effHere)
    | .ok v =>
      match response_to_features v with
      | .error pe => (.error (.py pe), effHere)
      | .ok fs =>
        let next := batchLoop world urlBase total (bnum + 1) rest
        (next.1.map (fun more => fs ++ more), effHere ++ next.2)

/-- The file name of the last path component. -/
def pathFileName (p : String) : String :=
  ((p.splitOn "/").getLast?).getD p

/-- `Path(p).stem`: the final component without its last extension. -/
def pathStem (p : String) : String :=
  let f := pathFileName p
  let parts := f.splitOn "."
  if parts.length ≤ 1 then f else String.intercalate "." parts.dropLast

/-- `Path(p).parent` as a string (the empty string plays the role of
`.` for a bare file name; only its use as a directory prefix matters). -/
def pathParent (p : String) : String :=
  let parts := p.splitOn "/"
  if parts.length ≤ 1 then "" else String.intercalate "/" parts.dropLast

/-- The output path `{out_dir}/{input stem}_response.geojson`, with the
output directory falling back to the input file's directory when the
configured one is empty. -/
def outPathFor (input_path output_dir : String) : String :=
  let dir := if output_dir = "" then pathParent input_path else output_dir
  dir ++ "/" ++ pathStem input_path ++ "_response.geojson"

/-- The body of `run_pipeline`'s `try` block, from reading the input
(its result passed in as `readResult`) to saving the merged output.
Returns the inner outcome — `none` models the early `return None` for
an empty waypoint list — together with the accumulated effects. -/
def pipelineInner (readResult : Except ReadErr JVal)
    (world : ℕ → ℕ → PostResult) (now : ℚ)
    (input_path api_url api_key output_dir : String) :
    Except RunErr (Option String) × Eff :=
  match readResult with
  | .error e => (.error (.read e), emptyEff)
  | .ok geojson =>
    match pyGet geojson "features" with
    | .error pe => (.error (.py pe), emptyEff)
    | .ok fv =>
      let features := if pyTruthy fv then fv else .jarr []
      match pyLen features with
      | .error pe => (.error (.py pe), emptyEff)
      | .ok nf =>
        let log1 := logEff [(.readInfo (pyGetD geojson "type" (.jstr "?")) nf, .info)]
        match geojson_to_mapmatch_body now geojson with
        | .error pe => (.error (.py pe), log1)
        | .ok body =>
          let ws := body.waypoints
          let log2 := log1 ++ logEff [(.waypointsInfo ws.length, .info)]
          if ws.isEmpty then
            (.ok none, log2 ++ logEff [(.noValidPoints, .error)])
          else
            let url := build_request_url api_url api_key
            let chunks := chunksOf MAX_WAYPOINTS_PER_REQUEST ws
            let total :=
              (ws.length + MAX_WAYPOINTS_PER_REQUEST - 1) / MAX_WAYPOINTS_PER_REQUEST
            let looped := batchLoop world (urlBaseOf url) total 1 chunks
            match looped.1 with
            | .error e => (.error e, log2 ++ looped.2)
            | .ok feats =>
              let out_path := outPathFor input_path output_dir
              let merged : JVal :=
                .jobj [("type", .jstr "FeatureCollection"), ("features", .jarr feats)]
              (.ok (some out_path),
                log2 ++ looped.2 ++
                  logEff [(.mergedInfo feats.length, .success),
                          (.requestCountInfo total, .info)] ++
                  ⟨[(out_path, merged)], 0, 0, [], [(.savedTo out_path, .success)]⟩)

/-- The error-severity log line each `except` clause of `run_pipeline`
emits, matched in the Python clause order (a JSON decode error from a
response body hits the `json.JSONDecodeError` clause, which precedes
both the `ValueError` and `RequestException` clauses). -/
def errorDispatch : RunErr → LogMsg
  | .read (.fileNotFound m) => .fileNotFound m
  | .read (.jsonDecode m) => .invalidGeojson m
  | .py (.valueError m) => .valueErrText m
  | .py (.typeError m) => .genericErr "TypeError" m
  | .py (.attributeError m) => .genericErr "AttributeError" m
  | .api (.jsonDecodeError m) => .invalidGeojson m
  | .api e => .apiErrText e

/-- The observable outcome of one `run_pipeline` call. -/
structure RunResult where
  output : Option String
  writes : List (String × JVal)
  posts : ℕ
  batches : ℕ
  sleeps : List ℚ
  log : List (LogMsg × LogLevel)

/-- `run_pipeline`: the initial input log line, the `try` body, and the
`except` boundary that converts any raised error into a final
error-severity log line and a `None` return. -/
def run_pipeline (readResult : Except ReadErr JVal)
    (world : ℕ → ℕ → PostResult) (now : ℚ)
    (input_path api_url api_key output_dir : String) : RunResult :=
  let inner := pipelineInner readResult world now input_path api_url api_key output_dir
  let eff := inner.2
  let baseLog : List (LogMsg × LogLevel) := [(.inputPath input_path, .info)]
  match inner.1 with
  | .ok out =>
    { output := out, writes := eff.writes, posts := eff.posts,
      batches := eff.batches, sleeps := eff.sleeps, log := baseLog ++ eff.log }
  | .error e =>
    { output := none, writes := eff.writes, posts := eff.posts,
      batches := eff.batches, sleeps := eff.sleeps,
      log := baseLog ++ eff.log ++ [(errorDispatch e, .error)] }

-- Configuration loading (`load_config`).
def CONFIG_NAME : String := "config.ini"

def CONFIG_EXAMPLE : String := "config.ini.example"

/-- The file-system state `load_config` consults. -/
structure ConfigFS where
  configExists : Bool
  exampleExists : Bool

/-- What `load_config` did: whether it copied the example file, and
whether it raised `FileNotFoundError` or went on to read the config. -/
structure LoadConfigOutcome where
  copiedExample : Bool
  result : Except String Unit

/-- `load_config`: when `config.ini` is missing but the example file
exists, copy the example over (without any message), then raise
`FileNotFoundError` exactly when `config.ini` still does not exist,
and otherwise read it. -/
def load_config (fs : ConfigFS) : LoadConfigOutcome :=
  let doCopy := !fs.configExists && fs.exampleExists
  let nowExists := fs.configExists || doCopy
  { copiedExample := doCopy,
    result :=
      if nowExists then .ok ()
      else .error ("Keine " ++ CONFIG_NAME ++ " gefunden.") }

-- Response extraction (C7).
/-- Whether a JSON value is a list (`isinstance(v, list)`). -/
def JVal.isArr : JVal → Bool
  | .jarr _ => true
  | _ => false

-- Converter helpers: the loop's skip test and the values it reads,
-- exposed as standalone functions for stating the converter claims.
/-- The survival test of the conversion loop
(`not coords or len(coords) < 2` negated), evaluated on the same
values the loop reads. -/
def codeSurvives (f : JVal) : Bool :=
  match pyGet f "geometry" with
  | .error _ => false
  | .ok g =>
    match pyGet (if pyTruthy g then g else .jobj []) "coordinates" with
    | .error _ => false
    | .ok coords =>
      if ¬ pyTruthy coords then false
      else
        match pyLen coords with
        | .error _ => false
        | .ok n => decide (2 ≤ n)

/-- The `coordinates` value the loop reads for a feature (`.null` when
a read fails, in which case the loop raises instead). -/
def codeCoords (f : JVal) : JVal :=
  match pyGet f "geometry" with
  | .error _ => .null
  | .ok g =>
    match pyGet (if pyTruthy g then g else .jobj []) "coordinates" with
    | .error _ => .null
    | .ok coords => coords

/-- The properties value the loop hands to the timestamp selection:
`f.get("properties") or {}` (`.null` when the read fails). -/
def codeProps (f : JVal) : JVal :=
  match pyGet f "properties" with
  | .error _ => .null
  | .ok p => if pyTruthy p then p else .jobj []

-- Spec-side predicates for C6, phrased from the claim's wording.
/-- Whether a feature qualifies per the claim: its geometry's
coordinate sequence has at least two components. -/
def featureQualifies (f : JVal) : Bool :=
  match f with
  | .jobj fields =>
    match fields.lookup "geometry" with
    | some (.jobj gs) =>
      match gs.lookup "coordinates" with
      | some (.jarr cs) => decide (2 ≤ cs.length)
      | _ => false
    | _ => false
  | _ => false

/-- The coordinate components of a feature's geometry (empty if the
feature has no array-shaped coordinates). -/
def specCoords (f : JVal) : List JVal :=
  match f with
  | .jobj fields =>
    match fields.lookup "geometry" with
    | some (.jobj gs) =>
      match gs.lookup "coordinates" with
      | some (.jarr cs) => cs
      | _ => []
    | _ => []
  | _ => []

/-- A feature of ordinary GeoJSON shape: an object whose `geometry` is
absent, `null`, or an object, and whose `coordinates` (when present)
is absent, `null`, or an array.  C6 is stated over such features. -/
def featureShapeOK (f : JVal) : Bool :=
  match f with
  | .jobj fields =>
    match fields.lookup "geometry" with
    | none => true
    | some .null => true
    | some (.jobj gs) =>
      (match gs.lookup "coordinates" with
       | none => true
       | some .null => true
       | some (.jarr _) => true
       | _ => false)
    | some _ => false
  | _ => false

-- Timestamp resolution (C5).
/-- The amended timestamp-resolution rule: the `timestamp` property if
present with a truthy value, else the `t` property if present with a
truthy value, else the synthetic `index * 10` seconds (Python `or`
chains on truthiness, not presence). -/
def amendedResolve (props : JVal) (i : ℕ) : JVal :=
  match props with
  | .jobj pfs =>
    if pyTruthy ((pfs.lookup "timestamp").getD .null) then
      (pfs.lookup "timestamp").getD .null
    else if pyTruthy ((pfs.lookup "t").getD .null) then
      (pfs.lookup "t").getD .null
    else .jnum ((i * 10 : ℕ) : ℚ)
  | _ => .null

-- Determinism of the Converter (C9).
/-- Whether a resolved timestamp value hits the current-time fallback
branch of `_timestamp_to_iso` (anything that is not a number, boolean
or string). -/
def tsFallsBack (ts : JVal) : Bool :=
  match ts with
  | .jnum _ => false
  | .jbool _ => false
  | .jstr _ => false
  | _ => true

/-- Whether the conversion loop ever hands a fallback-typed timestamp
to `_timestamp_to_iso` — the only way the current time can leak into
the output.  Mirrors the control flow of `convertFeatures`; branches
where the loop raises are `false` (an identical error is raised at any
current time). -/
def convertFeaturesUsesNow : ℕ → List JVal → Bool
  | _, [] => false
  | i, f :: rest =>
    match pyGet f "geometry" with
    | .error _ => false
    | .ok g =>
      match pyGet (if pyTruthy g then g else .jobj []) "coordinates" with
      | .error _ => false
      | .ok coords =>
        if ¬ pyTruthy coords then convertFeaturesUsesNow (i + 1) rest
        else
          match pyLen coords with
          | .error _ => false
          | .ok n =>
            if n < 2 then convertFeaturesUsesNow (i + 1) rest
            else
              match pyIdx coords 0 with
              | .error _ => false
              | .ok c0 =>
                match pyIdx coords 1 with
                | .error _ => false
                | .ok c1 =>
                  match pyFloat c0 with
                  | .error _ => false
                  | .ok _ =>
                    match pyFloat c1 with
                    | .error _ => false
                    | .ok _ =>
                      match pyGet f "properties" with
                      | .error _ => false
                      | .ok p =>
                        match tsSelect (if pyTruthy p then p else .jobj []) i with
                        | .error _ => false
                        | .ok ts => tsFallsBack ts || convertFeaturesUsesNow (i + 1) rest

/-- Whether a whole document's conversion consults the current time. -/
def usesNowFallback (geojson : JVal) : Bool :=
  match pyGet geojson "features" with
  | .error _ => false
  | .ok fv =>
    match pyIterate (if pyTruthy fv then fv else .jarr []) with
    | .error _ => false
    | .ok fs => convertFeaturesUsesNow 0 fs

-- Sanity checks of the embedding on concrete values (epoch, a known
-- date, and the skip conditions).
example : fmtTimestamp 0 = "1970-01-01T00:00:00.000Z" := by decide

example : fmtTimestamp 20 = "1970-01-01T00:00:20.000Z" := by decide

example : fmtTimestamp 1700000000 = "2023-11-14T22:13:20.000Z" := by decide

example : fmtTimestamp (-1) = "1969-12-31T23:59:59.000Z" := by decide

example :
    geojson_to_mapmatch_body 0
      (.jobj [("features", .jarr
        [.jobj [("geometry", .jobj [("coordinates", .jarr [.jnum 10, .jnum 50])])]])])
      = .ok ⟨"drive", [⟨"1970-01-01T00:00:00.000Z", (10, 50)⟩]⟩ := by decide

-- Small helper lemmas about effects and transport outcomes.
@[simp] lemma Eff.append_writes (a b : Eff) : (a ++ b).writes = a.writes ++ b.writes := rfl
@[simp] lemma Eff.append_posts (a b : Eff) : (a ++ b).posts = a.posts + b.posts := rfl
@[simp] lemma Eff.append_batches (a b : Eff) : (a ++ b).batches = a.batches + b.batches := rfl
@[simp] lemma Eff.append_sleeps (a b : Eff) : (a ++ b).sleeps = a.sleeps ++ b.sleeps := rfl
@[simp] lemma Eff.append_log (a b : Eff) : (a ++ b).log = a.log ++ b.log := rfl
@[simp] lemma emptyEff_writes : emptyEff.writes = [] := rfl
@[simp] lemma emptyEff_posts : emptyEff.posts = 0 := rfl
@[simp] lemma emptyEff_batches : emptyEff.batches = 0 := rfl
@[simp] lemma emptyEff_sleeps : emptyEff.sleeps = [] := rfl
@[simp] lemma emptyEff_log : emptyEff.log = [] := rfl
@[simp] lemma logEff_writes (l) : (logEff l).writes = [] := rfl
@[simp] lemma logEff_posts (l) : (logEff l).posts = 0 := rfl
@[simp] lemma logEff_batches (l) : (logEff l).batches = 0 := rfl
@[simp] lemma logEff_sleeps (l) : (logEff l).sleeps = [] := rfl
@[simp] lemma logEff_log (l) : (logEff l).log = l := rfl
lemma isConn_exists {p : PostResult} (h : p.isConn = true) : ∃ m, p = .connError m := by
  cases p <;> simp [PostResult.isConn] at h ⊢

lemma sendFrom_posts_le (world : ℕ → PostResult) (urlBase : String) :
    ∀ r attempt, (sendFrom world urlBase attempt r).posts ≤ r + 1 := by
  intro r
  induction r with
  | zero =>
    intro attempt
    rw [sendFrom]
    cases hw : world attempt <;> simp
    split
    · simp
    · split <;> simp
  | succ r ih =>
    intro attempt
    rw [sendFrom]
    cases hw : world attempt <;> simp
    · have := ih (attempt + 1)
      omega
    · split
      · simp
      · split <;> simp

/-- C1: `send_to_api` retries only connection-level failures — at most
`API_RETRIES` (= 3) total attempts with a fixed `RETRY_DELAY_SEC`
(= 3 s) sleep between consecutive attempts; `k` initial connection
failures (`k < 3`) followed by a successful exchange return the parsed
response after exactly `k + 1` attempts and `k` sleeps; three
connection failures raise a `RequestException` wrapping the message of
the last connection error after exactly 3 attempts and 2 sleeps; and
no run of the client ever issues more than 3 attempts. -/
theorem c1_send_to_api_retry_policy (world : ℕ → PostResult) (urlBase : String) :
    (∀ k st body v, k < API_RETRIES →
      (∀ j, 1 ≤ j → j ≤ k → (world j).isConn = true) →
      world (k + 1) = .response st body (some v) →
      ¬(400 ≤ st ∧ st < 600) →
      (send_to_api world urlBase).result = .ok v ∧
      (send_to_api world urlBase).posts = k + 1 ∧
      (send_to_api world urlBase).sleeps = List.replicate k ((RETRY_DELAY_SEC : ℕ) : ℚ))
    ∧ ((∀ j, 1 ≤ j → j ≤ API_RETRIES → (world j).isConn = true) →
      (send_to_api world urlBase).result
          = .error (.requestException ((world API_RETRIES).connMsg)) ∧
      (send_to_api world urlBase).posts = API_RETRIES ∧
      (send_to_api world urlBase).sleeps
          = List.replicate (API_RETRIES - 1) ((RETRY_DELAY_SEC : ℕ) : ℚ))
    ∧ (send_to_api world urlBase).posts ≤ API_RETRIES := by
  refine ⟨?_, ?_, ?_⟩
  · intro k st body v hk hconn hsucc hst
    have hk3 : k < 3 := by simpa [API_RETRIES] using hk
    interval_cases k
    · norm_num at hsucc
      simp only [send_to_api]
      rw [sendFrom, hsucc]
      simp [hst]
    · obtain ⟨m1, hw1⟩ := isConn_exists (hconn 1 (by omega) (by omega))
      norm_num at hsucc
      simp only [send_to_api]
      rw [sendFrom, hw1]
      simp only [API_RETRIES]
      norm_num
      rw [sendFrom, hsucc]
      simp [hst, List.replicate]
    · obtain ⟨m1, hw1⟩ := isConn_exists (hconn 1 (by omega) (by omega))
      obtain ⟨m2, hw2⟩ := isConn_exists (hconn 2 (by omega) (by omega))
      norm_num at hsucc
      simp only [send_to_api]
      rw [sendFrom, hw1]
      simp only [API_RETRIES]
      norm_num
      rw [sendFrom, hw2]
      norm_num
      rw [sendFrom, hsucc]
      simp [hst, List.replicate]
  · intro hconn
    obtain ⟨m1, hw1⟩ := isConn_exists (hconn 1 (by omega) (by simp [API_RETRIES]))
    obtain ⟨m2, hw2⟩ := isConn_exists (hconn 2 (by omega) (by simp [API_RETRIES]))
    obtain ⟨m3, hw3⟩ := isConn_exists (hconn 3 (by omega) (by simp [API_RETRIES]))
    simp only [send_to_api]
    rw [sendFrom, hw1]
    simp only [API_RETRIES]
    norm_num
    rw [sendFrom, hw2]
    norm_num
    rw [sendFrom, hw3]
    simp [hw3, PostResult.connMsg, List.replicate]
  · have := sendFrom_posts_le world urlBase (API_RETRIES - 1) 1
    simpa [send_to_api, API_RETRIES] using this

/-- C1 witness: a transport failing with connection errors on the first
two attempts and succeeding on the third returns the parsed body after
exactly 3 attempts. -/
theorem c1_send_to_api_retry_policy_witness :
    (send_to_api
        (fun j => if j ≤ 2 then .connError "unreachable"
                  else .response 200 "\x7b\x7d" (some (.jobj []))) "u").result
      = .ok (.jobj []) ∧
    (send_to_api
        (fun j => if j ≤ 2 then .connError "unreachable"
                  else .response 200 "\x7b\x7d" (some (.jobj []))) "u").posts = 3 := by
  have h := (c1_send_to_api_retry_policy
      (fun j => if j ≤ 2 then .connError "unreachable"
                else .response 200 "\x7b\x7d" (some (.jobj []))) "u").1
      2 200 "\x7b\x7d" (.jobj [])
      (by simp [API_RETRIES])
      (by intro j h1 h2; interval_cases j <;> simp [PostResult.isConn])
      (by norm_num)
      (by norm_num)
  exact ⟨h.1, h.2.1⟩

/-- C2: an HTTP exchange completing with a 4xx/5xx status is not
retried — `send_to_api` raises the HTTP error after exactly one
attempt, sleeps never, and (for a non-empty body) logs the response
body truncated to 500 characters at error severity. -/
theorem c2_http_error_not_retried (world : ℕ → PostResult) (urlBase : String)
    (st : ℕ) (body : String) (mj : Option JVal)
    (h4 : 400 ≤ st) (h6 : st < 600) (hw : world 1 = .response st body mj) :
    (send_to_api world urlBase).result = .error (.httpError st body) ∧
    (send_to_api world urlBase).posts = 1 ∧
    (send_to_api world urlBase).sleeps = [] ∧
    (body ≠ "" →
      (LogMsg.httpBodyText (body.take 500), LogLevel.error)
        ∈ (send_to_api world urlBase).log) := by
  have hst : 400 ≤ st ∧ st < 600 := ⟨h4, h6⟩
  refine ⟨?_, ?_, ?_, ?_⟩
  · simp only [send_to_api]; rw [sendFrom, hw]; simp [hst]
  · simp only [send_to_api]; rw [sendFrom, hw]; simp [hst]
  · simp only [send_to_api]; rw [sendFrom, hw]; simp [hst]
  · intro hb
    simp only [send_to_api]; rw [sendFrom, hw]; simp [hst, hb]

/-- C2 witness: a 404 with body text `"not found"` raises immediately
with one attempt and the truncated body in the error log. -/
theorem c2_http_error_not_retried_witness :
    (send_to_api (fun _ => .response 404 "not found" none) "u").result
      = .error (.httpError 404 "not found") ∧
    (send_to_api (fun _ => .response 404 "not found" none) "u").posts = 1 ∧
    (LogMsg.httpBodyText ("not found".take 500), LogLevel.error)
      ∈ (send_to_api (fun _ => .response 404 "not found" none) "u").log := by
  have h := c2_http_error_not_retried (fun _ => .response 404 "not found" none) "u"
      404 "not found" none (by norm_num) (by norm_num) rfl
  exact ⟨h.1, h.2.1, h.2.2.2 (by simp)⟩

/-- C10: `load_config` silently copies `config.ini.example` to
`config.ini` exactly when the config is missing and the example
exists, and raises `FileNotFoundError` exactly when neither file
exists (otherwise it reads the config). -/
theorem c10_load_config_example_fallback (fs : ConfigFS) :
    (load_config fs).copiedExample = (!fs.configExists && fs.exampleExists) ∧
    (load_config fs).result.isOk = (fs.configExists || fs.exampleExists) := by
  rcases fs with ⟨c, e⟩
  cases c <;> cases e <;> simp [load_config, Except.isOk, Except.toBool]

-- Chunking lemmas (fuel-stable properties of `chunksOfGo`).
lemma chunksOfGo_join (M : ℕ) (hM : 1 ≤ M) :
    ∀ f (xs : List Waypoint), xs.length ≤ f → (chunksOfGo M f xs).flatten = xs := by
  intro f
  induction f with
  | zero =>
    intro xs hx
    have hnil : xs = [] := List.length_eq_zero.mp (Nat.le_zero.mp hx)
    subst hnil
    rfl
  | succ f ih =>
    intro xs hx
    cases xs with
    | nil => rfl
    | cons x xs =>
      simp only [chunksOfGo, List.flatten_cons]
      have hdrop : ((x :: xs).drop M).length ≤ f := by
        simp only [List.length_drop, List.length_cons] at *
        omega
      rw [ih _ hdrop, List.take_append_drop]

lemma chunksOfGo_length (M : ℕ) (hM : 1 ≤ M) :
    ∀ f (xs : List Waypoint), xs.length ≤ f →
      (chunksOfGo M f xs).length = (xs.length + M - 1) / M := by
  intro f
  induction f with
  | zero =>
    intro xs hx
    have hnil : xs = [] := List.length_eq_zero.mp (Nat.le_zero.mp hx)
    subst hnil
    simp [chunksOfGo, Nat.div_eq_of_lt (show M - 1 < M by omega)]
  | succ f ih =>
    intro xs hx
    cases xs with
    | nil => simp [chunksOfGo, Nat.div_eq_of_lt (show M - 1 < M by omega)]
    | cons x xs =>
      simp only [chunksOfGo, List.length_cons]
      have hdrop : ((x :: xs).drop M).length ≤ f := by
        simp only [List.length_drop, List.length_cons] at *
        omega
      rw [ih _ hdrop]
      simp only [List.length_drop, List.length_cons]
      rcases le_or_lt (xs.length + 1) M with hle | hgt
      · have h1 : xs.length + 1 - M = 0 := by omega
        have h2 : xs.length + 1 + M - 1 = xs.length + M := by omega
        rw [h1, h2, Nat.add_div_right _ (show 0 < M by omega),
          Nat.div_eq_of_lt (show xs.length < M by omega),
          Nat.div_eq_of_lt (show 0 + M - 1 < M by omega)]
      · have h1 : xs.length + 1 - M + M - 1 = xs.length := by omega
        have h2 : xs.length + 1 + M - 1 = xs.length + M := by omega
        rw [h1, h2, Nat.add_div_right _ (show 0 < M by omega)]

lemma chunksOfGo_sizes (M : ℕ) (hM : 1 ≤ M) :
    ∀ f (xs : List Waypoint), xs.length ≤ f →
      ∀ c ∈ chunksOfGo M f xs, c.length ≤ M := by
  intro f
  induction f with
  | zero =>
    intro xs hx
    have hnil : xs = [] := List.length_eq_zero.mp (Nat.le_zero.mp hx)
    subst hnil
    simp [chunksOfGo]
  | succ f ih =>
    intro xs hx
    cases xs with
    | nil => simp [chunksOfGo]
    | cons x xs =>
      simp only [chunksOfGo, List.mem_cons]
      rintro c (rfl | hc)
      · simp only [List.length_take, List.length_cons]
        omega
      · have hdrop : ((x :: xs).drop M).length ≤ f := by
          simp only [List.length_drop, List.length_cons] at *
          omega
        exact ih _ hdrop c hc

lemma chunksOfGo_ne_nil (M : ℕ) :
    ∀ f (xs : List Waypoint), chunksOfGo M f xs ≠ [] → xs ≠ [] := by
  intro f xs h
  cases xs with
  | nil => cases f <;> simp [chunksOfGo] at h
  | cons x xs => simp

lemma chunksOfGo_full (M : ℕ) (hM : 1 ≤ M) :
    ∀ f (xs : List Waypoint), xs.length ≤ f →
      ∀ i, i + 1 < (chunksOfGo M f xs).length →
        ((chunksOfGo M f xs).getD i []).length = M := by
  intro f
  induction f with
  | zero =>
    intro xs hx
    have hnil : xs = [] := List.length_eq_zero.mp (Nat.le_zero.mp hx)
    subst hnil
    simp [chunksOfGo]
  | succ f ih =>
    intro xs hx
    cases xs with
    | nil => simp [chunksOfGo]
    | cons x xs =>
      intro i hi
      have hdrop : ((x :: xs).drop M).length ≤ f := by
        simp only [List.length_drop, List.length_cons] at *
        omega
      cases i with
      | zero =>
        simp only [chunksOfGo, List.length_cons, List.getD_cons_zero] at hi ⊢
        have hne : chunksOfGo M f ((x :: xs).drop M) ≠ [] := by
          intro hnil
          rw [hnil] at hi
          simp at hi
        have hxs : (x :: xs).drop M ≠ [] := chunksOfGo_ne_nil M f _ hne
        have hlen : M < xs.length + 1 := by
          by_contra hcon
          exact hxs (List.drop_eq_nil_of_le (by simp only [List.length_cons]; omega))
        simp only [List.length_take, List.length_cons]
        omega
      | succ i =>
        simp only [chunksOfGo, List.length_cons, List.getD_cons_succ] at hi ⊢
        exact ih _ hdrop i (by omega)

lemma batchLoop_ok_batches (world : ℕ → ℕ → PostResult) (urlBase : String) (total : ℕ) :
    ∀ (chunks : List (List Waypoint)) (bnum : ℕ),
      (batchLoop world urlBase total bnum chunks).1.isOk = true →
      (batchLoop world urlBase total bnum chunks).2.batches = chunks.length := by
  intro chunks
  induction chunks with
  | nil => intro bnum _; rfl
  | cons c rest ih =>
    intro bnum hok
    simp only [batchLoop] at hok ⊢
    cases hs : (send_to_api (world bnum) urlBase).result with
    | error e => simp only [hs] at hok; simp [Except.isOk, Except.toBool] at hok
    | ok v =>
      simp only [hs] at hok ⊢
      cases hr : response_to_features v with
      | error pe => simp only [hr] at hok; simp [Except.isOk, Except.toBool] at hok
      | ok fs =>
        simp only [hr] at hok ⊢
        have hok' : (batchLoop world urlBase total (bnum + 1) rest).1.isOk = true := by
          rcases hmap : (batchLoop world urlBase total (bnum + 1) rest).1 with e | r
          · rw [hmap] at hok
            simp [Except.map, Except.isOk, Except.toBool] at hok
          · simp [Except.isOk, Except.toBool]
        simp only [List.length_cons, Eff.append_batches]
        rw [ih (bnum + 1) hok']
        omega

/-- C3: the batching loop splits the waypoint list into consecutive,
non-overlapping slices: exactly `ceil(N / M)` chunks for
`M = MAX_WAYPOINTS_PER_REQUEST = 1000`, each of at most `M` waypoints,
every chunk except possibly the last of exactly `M`, concatenating the
chunks in order reproduces the original list, and a run whose batch
loop completes has submitted exactly `ceil(N / M)` batches. -/
theorem c3_batching (ws : List Waypoint) :
    (chunksOf MAX_WAYPOINTS_PER_REQUEST ws).length
        = (ws.length + MAX_WAYPOINTS_PER_REQUEST - 1) / MAX_WAYPOINTS_PER_REQUEST
    ∧ (chunksOf MAX_WAYPOINTS_PER_REQUEST ws).flatten = ws
    ∧ (∀ c ∈ chunksOf MAX_WAYPOINTS_PER_REQUEST ws,
        c.length ≤ MAX_WAYPOINTS_PER_REQUEST)
    ∧ (∀ i, i + 1 < (chunksOf MAX_WAYPOINTS_PER_REQUEST ws).length →
        ((chunksOf MAX_WAYPOINTS_PER_REQUEST ws).getD i []).length
          = MAX_WAYPOINTS_PER_REQUEST)
    ∧ (∀ world urlBase total bnum,
        (batchLoop world urlBase total bnum
            (chunksOf MAX_WAYPOINTS_PER_REQUEST ws)).1.isOk = true →
        (batchLoop world urlBase total bnum
            (chunksOf MAX_WAYPOINTS_PER_REQUEST ws)).2.batches
          = (ws.length + MAX_WAYPOINTS_PER_REQUEST - 1) / MAX_WAYPOINTS_PER_REQUEST) := by
  have hM : 1 ≤ MAX_WAYPOINTS_PER_REQUEST := by simp [MAX_WAYPOINTS_PER_REQUEST]
  refine ⟨chunksOfGo_length _ hM _ _ le_rfl, chunksOfGo_join _ hM _ _ le_rfl,
    chunksOfGo_sizes _ hM _ _ le_rfl, chunksOfGo_full _ hM _ _ le_rfl, ?_⟩
  intro world urlBase total bnum hok
  rw [batchLoop_ok_batches world urlBase total _ bnum hok]
  exact chunksOfGo_length _ hM _ _ le_rfl

/-- C3 witness: 2500 waypoints are split into 3 chunks whose
concatenation is the original list. -/
theorem c3_batching_witness :
    (chunksOf MAX_WAYPOINTS_PER_REQUEST
        (List.replicate 2500 (default : Waypoint))).length = 3 ∧
    (chunksOf MAX_WAYPOINTS_PER_REQUEST
        (List.replicate 2500 (default : Waypoint))).flatten
      = List.replicate 2500 (default : Waypoint) := by
  have h := c3_batching (List.replicate 2500 (default : Waypoint))
  refine ⟨?_, h.2.1⟩
  rw [h.1]
  norm_num [List.length_replicate, MAX_WAYPOINTS_PER_REQUEST]

/-- C7: per-batch response feature extraction follows the precedence of
`_response_to_features`: a top-level `features` list is returned
verbatim; otherwise a document whose `type` is `"Feature"` becomes a
one-element list containing the document; otherwise a document with a
top-level `geometry` becomes one synthesized Feature wrapping that
geometry and the document's top-level properties; otherwise the result
is empty. -/
theorem c7_response_feature_extraction (fields : List (String × JVal)) :
    (∀ xs, (fields.lookup "features").getD .null = .jarr xs →
      response_to_features (.jobj fields) = .ok xs)
    ∧ (((fields.lookup "features").getD .null).isArr = false →
      isFeatureTag ((fields.lookup "type").getD .null) = true →
      response_to_features (.jobj fields) = .ok [.jobj fields])
    ∧ (∀ g, ((fields.lookup "features").getD .null).isArr = false →
      isFeatureTag ((fields.lookup "type").getD .null) = false →
      fields.lookup "geometry" = some g →
      response_to_features (.jobj fields)
        = .ok [.jobj [("type", .jstr "Feature"), ("geometry", g),
                      ("properties", (fields.lookup "properties").getD (.jobj []))]])
    ∧ (((fields.lookup "features").getD .null).isArr = false →
      isFeatureTag ((fields.lookup "type").getD .null) = false →
      fields.lookup "geometry" = none →
      response_to_features (.jobj fields) = .ok []) := by
  refine ⟨?_, ?_, ?_, ?_⟩
  · intro xs h
    simp [response_to_features, h]
  · intro hna ht
    rcases hv : (fields.lookup "features").getD .null with _ | b | q | str | xs | fs <;>
      rw [hv] at hna <;> simp [JVal.isArr] at hna <;>
      simp [response_to_features, hv, ht]
  · intro g hna ht hg
    rcases hv : (fields.lookup "features").getD .null with _ | b | q | str | xs | fs <;>
      rw [hv] at hna <;> simp [JVal.isArr] at hna <;>
      simp [response_to_features, hv, ht, hg]
  · intro hna ht hg
    rcases hv : (fields.lookup "features").getD .null with _ | b | q | str | xs | fs <;>
      rw [hv] at hna <;> simp [JVal.isArr] at hna <;>
      simp [response_to_features, hv, ht, hg]

/-- C7 witness: a response that is a single Feature document (no
`features` list) is extracted as the one-element list containing it —
the claim's single-Feature scenario. -/
theorem c7_response_feature_extraction_witness :
    response_to_features
        (.jobj [("type", .jstr "Feature"), ("geometry", .jobj [])])
      = .ok [.jobj [("type", .jstr "Feature"), ("geometry", .jobj [])]] := by
  exact (c7_response_feature_extraction
      [("type", .jstr "Feature"), ("geometry", .jobj [])]).2.1 rfl rfl

lemma convertFeatures_cons_notSurvive (now : ℚ) (i : ℕ) (f : JVal)
    (rest : List JVal) (ws : List Waypoint)
    (hs : codeSurvives f = false)
    (hok : convertFeatures now i (f :: rest) = .ok ws) :
    convertFeatures now (i + 1) rest = .ok ws := by
  rw [convertFeatures] at hok
  simp only [codeSurvives] at hs
  cases hg : pyGet f "geometry" with
  | error e =>
    simp only [hg] at hok
    exact Except.noConfusion hok
  | ok g =>
    simp only [hg] at hok hs
    cases hc : pyGet (if pyTruthy g then g else .jobj []) "coordinates" with
    | error e =>
      simp only [hc] at hok
      exact Except.noConfusion hok
    | ok coords =>
      simp only [hc] at hok hs
      by_cases ht : pyTruthy coords = true
      · simp only [ht, not_true_eq_false, if_false] at hok hs
        cases hl : pyLen coords with
        | error e =>
          simp only [hl] at hok
          exact Except.noConfusion hok
        | ok n =>
          simp only [hl] at hok hs
          by_cases hn : n < 2
          · simpa [hn] using hok
          · simp only [decide_eq_false_iff_not, not_le] at hs
            exact absurd hs hn
      · simp only [Bool.not_eq_true] at ht
        simpa [ht] using hok

lemma convertFeatures_cons_survive (now : ℚ) (i : ℕ) (f : JVal)
    (rest : List JVal) (ws : List Waypoint)
    (hs : codeSurvives f = true)
    (hok : convertFeatures now i (f :: rest) = .ok ws) :
    ∃ c0 c1 lon lat ts ws',
      pyIdx (codeCoords f) 0 = .ok c0 ∧
      pyIdx (codeCoords f) 1 = .ok c1 ∧
      pyFloat c0 = .ok lon ∧
      pyFloat c1 = .ok lat ∧
      tsSelect (codeProps f) i = .ok ts ∧
      convertFeatures now (i + 1) rest = .ok ws' ∧
      ws = ⟨timestamp_to_iso now ts, (lon, lat)⟩ :: ws' := by
  rw [convertFeatures] at hok
  simp only [codeSurvives] at hs
  simp only [codeCoords, codeProps]
  cases hg : pyGet f "geometry" with
  | error e =>
    simp only [hg] at hs
    exact Bool.noConfusion hs
  | ok g =>
    simp only [hg] at hok hs ⊢
    cases hc : pyGet (if pyTruthy g then g else .jobj []) "coordinates" with
    | error e =>
      simp only [hc] at hs
      exact Bool.noConfusion hs
    | ok coords =>
      simp only [hc] at hok hs ⊢
      by_cases ht : pyTruthy coords = true
      case neg =>
        simp only [Bool.not_eq_true] at ht
        simp [ht] at hs
      case pos =>
        simp only [ht, not_true_eq_false, if_false] at hok hs
        cases hl : pyLen coords with
        | error e =>
          simp only [hl] at hs
          exact Bool.noConfusion hs
        | ok n =>
          simp only [hl] at hok hs
          simp only [decide_eq_true_eq] at hs
          have hn : ¬ n < 2 := by omega
          rw [if_neg hn] at hok
          cases hc0 : pyIdx coords 0 with
          | error e =>
            simp only [hc0] at hok
            exact Except.noConfusion hok
          | ok c0 =>
            simp only [hc0] at hok
            cases hc1 : pyIdx coords 1 with
            | error e =>
              simp only [hc1] at hok
              exact Except.noConfusion hok
            | ok c1 =>
              simp only [hc1] at hok
              cases hf0 : pyFloat c0 with
              | error e =>
                simp only [hf0] at hok
                exact Except.noConfusion hok
              | ok lon =>
                simp only [hf0] at hok
                cases hf1 : pyFloat c1 with
                | error e =>
                  simp only [hf1] at hok
                  exact Except.noConfusion hok
                | ok lat =>
                  simp only [hf1] at hok
                  cases hp : pyGet f "properties" with
                  | error e =>
                    simp only [hp] at hok
                    exact Except.noConfusion hok
                  | ok p =>
                    simp only [hp] at hok ⊢
                    cases hts : tsSelect (if pyTruthy p then p else .jobj []) i with
                    | error e =>
                      simp only [hts] at hok
                      exact Except.noConfusion hok
                    | ok ts =>
                      simp only [hts] at hok
                      cases hrest : convertFeatures now (i + 1) rest with
                      | error e =>
                        simp only [hrest] at hok
                        exact Except.noConfusion hok
                      | ok ws' =>
                        simp only [hrest] at hok
                        refine ⟨c0, c1, lon, lat, ts, ws', rfl, rfl, hf0, hf1, rfl, rfl, ?_⟩
                        exact ((Except.ok.injEq _ _).mp hok).symm

lemma convertFeatures_spec (now : ℚ) :
    ∀ (fs : List JVal) (i : ℕ) (ws : List Waypoint),
      convertFeatures now i fs = .ok ws →
      ws.length = (fs.filter codeSurvives).length ∧
      ∀ k, k < ws.length →
        ∃ c0 c1,
          pyIdx (codeCoords ((fs.filter codeSurvives).getD k .null)) 0 = .ok c0 ∧
          pyIdx (codeCoords ((fs.filter codeSurvives).getD k .null)) 1 = .ok c1 ∧
          pyFloat c0 = .ok ((ws.getD k default).location.1) ∧
          pyFloat c1 = .ok ((ws.getD k default).location.2) := by
  intro fs
  induction fs with
  | nil =>
    intro i ws hok
    rw [convertFeatures] at hok
    obtain rfl := ((Except.ok.injEq _ _).mp hok)
    exact ⟨by simp, by intro k hk; simp at hk⟩
  | cons f rest ih =>
    intro i ws hok
    by_cases hs : codeSurvives f = true
    · obtain ⟨c0, c1, lon, lat, ts, ws', hc0, hc1, hf0, hf1, hts, hrest, hws⟩ :=
        convertFeatures_cons_survive now i f rest ws hs hok
      subst hws
      obtain ⟨ihlen, ihloc⟩ := ih (i + 1) ws' hrest
      rw [List.filter_cons_of_pos hs]
      refine ⟨by simpa using ihlen, ?_⟩
      intro k hk
      cases k with
      | zero =>
        refine ⟨c0, c1, ?_, ?_, ?_, ?_⟩ <;>
          simp only [List.getD_cons_zero]
        · exact hc0
        · exact hc1
        · simpa using hf0
        · simpa using hf1
      | succ k =>
        simp only [List.getD_cons_succ]
        exact ihloc k (by simpa using hk)
    · have hs' : codeSurvives f = false := by simpa using hs
      have hrest := convertFeatures_cons_notSurvive now i f rest ws hs' hok
      obtain ⟨ihlen, ihloc⟩ := ih (i + 1) ws hrest
      rw [List.filter_cons_of_neg (by simp [hs'])]
      exact ⟨ihlen, ihloc⟩

lemma geojson_body_waypoints (now : ℚ) (doc fv : JVal) (fs : List JVal)
    (body : MapMatchBody)
    (hfv : pyGet doc "features" = .ok fv)
    (hfs : pyIterate (if pyTruthy fv then fv else .jarr []) = .ok fs)
    (hok : geojson_to_mapmatch_body now doc = .ok body) :
    convertFeatures now 0 fs = .ok body.waypoints := by
  rw [geojson_to_mapmatch_body] at hok
  simp only [hfv, hfs] at hok
  cases hw : convertFeatures now 0 fs with
  | error e =>
    simp only [hw] at hok
    exact Except.noConfusion hok
  | ok ws =>
    simp only [hw] at hok
    have h := (Except.ok.injEq _ _).mp hok
    subst h
    rfl

lemma body_ok_parts (now : ℚ) (doc : JVal) (body : MapMatchBody)
    (hok : geojson_to_mapmatch_body now doc = .ok body) :
    ∃ fv fs, pyGet doc "features" = .ok fv ∧
      pyIterate (if pyTruthy fv then fv else .jarr []) = .ok fs ∧
      convertFeatures now 0 fs = .ok body.waypoints := by
  rw [geojson_to_mapmatch_body] at hok
  split at hok
  · exact Except.noConfusion hok
  · rename_i fv hfv
    split at hok
    · exact Except.noConfusion hok
    · rename_i fs hfs
      split at hok
      · exact Except.noConfusion hok
      · rename_i ws hw
        have h := (Except.ok.injEq _ _).mp hok
        subst h
        exact ⟨fv, fs, hfv, hfs, hw⟩

lemma iterate_ok_pyLen (v : JVal) (fs : List JVal) (h : pyIterate v = .ok fs) :
    ∃ n, pyLen v = .ok n := by
  cases v <;> simp [pyIterate, pyLen] at h ⊢

lemma ifTruthyObj (gs : List (String × JVal)) :
    (if pyTruthy (.jobj gs) then JVal.jobj gs else .jobj []) = .jobj gs := by
  cases gs <;> simp [pyTruthy]

lemma shape_survives (f : JVal) (h : featureShapeOK f = true) :
    codeSurvives f = featureQualifies f ∧
    (featureQualifies f = true → codeCoords f = .jarr (specCoords f)) := by
  cases f with
  | jobj fields =>
    simp only [featureShapeOK] at h
    simp only [codeSurvives, codeCoords, featureQualifies, specCoords, pyGet]
    cases hg : fields.lookup "geometry" with
    | none => simp [pyTruthy, pyGet]
    | some g =>
      simp only [hg] at h
      cases g with
      | null => simp [pyTruthy, pyGet]
      | jobj gs =>
        simp only [Option.getD_some, ifTruthyObj, pyGet]
        cases hc : gs.lookup "coordinates" with
        | none => simp [pyTruthy]
        | some c =>
          simp only [hc] at h
          cases c with
          | null => simp [pyTruthy]
          | jarr cs =>
            simp only [Option.getD_some]
            cases cs with
            | nil => simp [pyTruthy]
            | cons c0 cs => simp [pyTruthy, pyLen]
          | jbool b => exact Bool.noConfusion h
          | jnum q => exact Bool.noConfusion h
          | jstr s => exact Bool.noConfusion h
          | jobj o => exact Bool.noConfusion h
      | jbool b => exact Bool.noConfusion h
      | jnum q => exact Bool.noConfusion h
      | jstr s => exact Bool.noConfusion h
      | jarr xs => exact Bool.noConfusion h
  | null => exact Bool.noConfusion h
  | jbool b => exact Bool.noConfusion h
  | jnum q => exact Bool.noConfusion h
  | jstr s => exact Bool.noConfusion h
  | jarr xs => exact Bool.noConfusion h

/-- C6: for a feature collection of ordinary GeoJSON shape whose
conversion succeeds, the output waypoint list is exactly as long as the
list of input features whose geometry's coordinate sequence has at
least two components (others are silently skipped), and each
waypoint's location is the corresponding surviving feature's first two
coordinate components cast to floating point, in input order. -/
theorem c6_converter_length_and_locations (now : ℚ) (doc fv : JVal)
    (fs : List JVal) (body : MapMatchBody)
    (hfv : pyGet doc "features" = .ok fv)
    (hfs : pyIterate (if pyTruthy fv then fv else .jarr []) = .ok fs)
    (hshape : ∀ f ∈ fs, featureShapeOK f = true)
    (hok : geojson_to_mapmatch_body now doc = .ok body) :
    body.waypoints.length = (fs.filter featureQualifies).length ∧
    ∀ k, k < body.waypoints.length →
      pyFloat ((specCoords ((fs.filter featureQualifies).getD k .null)).getD 0 .null)
        = .ok ((body.waypoints.getD k default).location.1) ∧
      pyFloat ((specCoords ((fs.filter featureQualifies).getD k .null)).getD 1 .null)
        = .ok ((body.waypoints.getD k default).location.2) := by
  have hconv := geojson_body_waypoints now doc fv fs body hfv hfs hok
  obtain ⟨hlen, hloc⟩ := convertFeatures_spec now fs 0 body.waypoints hconv
  have hfiltereq : fs.filter codeSurvives = fs.filter featureQualifies := by
    apply List.filter_congr
    intro f hf
    exact (shape_survives f (hshape f hf)).1
  rw [hfiltereq] at hlen hloc
  refine ⟨hlen, ?_⟩
  intro k hk
  obtain ⟨c0, c1, hc0, hc1, hf0, hf1⟩ := hloc k hk
  have hkq : k < (fs.filter featureQualifies).length := by rw [← hlen]; exact hk
  have hmemf : (fs.filter featureQualifies).getD k .null ∈ fs.filter featureQualifies := by
    rw [List.getD_eq_getElem (fs.filter featureQualifies) .null hkq]
    exact List.getElem_mem hkq
  have hmem : (fs.filter featureQualifies).getD k .null ∈ fs :=
    List.mem_of_mem_filter hmemf
  have hqual : featureQualifies ((fs.filter featureQualifies).getD k .null) = true :=
    List.of_mem_filter hmemf
  have hcc := (shape_survives _ (hshape _ hmem)).2 hqual
  rw [hcc] at hc0 hc1
  simp only [pyIdx] at hc0 hc1
  have h0 := (Except.ok.injEq _ _).mp hc0
  have h1 := (Except.ok.injEq _ _).mp hc1
  rw [h0, h1]
  exact ⟨hf0, hf1⟩

/-- C6 witness: of two features, the geometry-less one is skipped and
the survivor with coordinates `[7, 8]` yields the single waypoint with
location `(7, 8)`. -/
theorem c6_converter_length_and_locations_witness :
    geojson_to_mapmatch_body 0
        (.jobj [("features", .jarr
          [.jobj [],
           .jobj [("geometry", .jobj [("coordinates", .jarr [.jnum 7, .jnum 8])])]])])
      = .ok ⟨"drive", [⟨"1970-01-01T00:00:10.000Z", (7, 8)⟩]⟩ ∧
    ([⟨"1970-01-01T00:00:10.000Z", (7, 8)⟩] : List Waypoint).length
      = (([.jobj [],
           .jobj [("geometry", .jobj [("coordinates", .jarr [.jnum 7, .jnum 8])])]] :
            List JVal).filter featureQualifies).length ∧
    pyFloat ((specCoords ((([.jobj [],
           .jobj [("geometry", .jobj [("coordinates", .jarr [.jnum 7, .jnum 8])])]] :
            List JVal).filter featureQualifies).getD 0 .null)).getD 0 .null)
      = .ok ((([⟨"1970-01-01T00:00:10.000Z", (7, 8)⟩] :
            List Waypoint).getD 0 default).location.1) := by
  have hok : geojson_to_mapmatch_body 0
      (.jobj [("features", .jarr
        [.jobj [],
         .jobj [("geometry", .jobj [("coordinates", .jarr [.jnum 7, .jnum 8])])]])])
      = .ok ⟨"drive", [⟨"1970-01-01T00:00:10.000Z", (7, 8)⟩]⟩ := by decide
  have h := c6_converter_length_and_locations 0
      (.jobj [("features", .jarr
        [.jobj [],
         .jobj [("geometry", .jobj [("coordinates", .jarr [.jnum 7, .jnum 8])])]])])
      (.jarr [.jobj [],
         .jobj [("geometry", .jobj [("coordinates", .jarr [.jnum 7, .jnum 8])])]])
      [.jobj [],
         .jobj [("geometry", .jobj [("coordinates", .jarr [.jnum 7, .jnum 8])])]]
      ⟨"drive", [⟨"1970-01-01T00:00:10.000Z", (7, 8)⟩]⟩
      rfl rfl
      (by
        intro f hf
        simp only [List.mem_cons, List.not_mem_nil, or_false] at hf
        rcases hf with rfl | rfl <;> rfl)
      hok
  exact ⟨hok, h.1, (h.2 0 (by simp)).1⟩

lemma tsSelect_jobj (pfs : List (String × JVal)) (i : ℕ) :
    tsSelect (.jobj pfs) i = .ok (amendedResolve (.jobj pfs) i) := by
  rw [tsSelect]
  simp only [pyGet, amendedResolve]
  by_cases h1 : pyTruthy ((pfs.lookup "timestamp").getD .null) = true
  · simp [h1]
  · simp only [Bool.not_eq_true] at h1
    by_cases h2 : pyTruthy ((pfs.lookup "t").getD .null) = true
    · simp [h1, h2]
    · simp only [Bool.not_eq_true] at h2
      simp [h1, h2]

lemma convertFeatures_timestamp (now : ℚ) :
    ∀ (fs : List JVal) (j i : ℕ) (ws : List Waypoint)
      (pfs : List (String × JVal)),
      convertFeatures now i fs = .ok ws →
      j < fs.length →
      codeSurvives (fs.getD j .null) = true →
      codeProps (fs.getD j .null) = .jobj pfs →
      (ws.getD ((fs.take j).filter codeSurvives).length default).timestamp
        = timestamp_to_iso now (amendedResolve (.jobj pfs) (i + j)) := by
  intro fs
  induction fs with
  | nil =>
    intro j i ws pfs _ hj
    exact absurd hj (by simp)
  | cons f rest ih =>
    intro j i ws pfs hok hj hq hp
    cases j with
    | zero =>
      simp only [List.getD_cons_zero] at hq hp
      obtain ⟨c0, c1, lon, lat, ts, ws', hc0, hc1, hf0, hf1, hts, hrest, hws⟩ :=
        convertFeatures_cons_survive now i f rest ws hq hok
      subst hws
      rw [hp, tsSelect_jobj] at hts
      have hts' := (Except.ok.injEq _ _).mp hts
      simp only [List.take_zero, List.filter_nil, List.length_nil,
        List.getD_cons_zero, Nat.add_zero]
      rw [← hts']
    | succ j =>
      simp only [List.getD_cons_succ] at hq hp
      have harith : i + 1 + j = i + (j + 1) := by omega
      by_cases hs0 : codeSurvives f = true
      · obtain ⟨c0, c1, lon, lat, ts, ws', _, _, _, _, _, hrest, hws⟩ :=
          convertFeatures_cons_survive now i f rest ws hs0 hok
        subst hws
        simp only [List.take_succ_cons, List.filter_cons_of_pos hs0,
          List.length_cons, List.getD_cons_succ]
        rw [← harith]
        exact ih j (i + 1) ws' pfs hrest (by simpa using hj) hq hp
      · have hs0' : codeSurvives f = false := by simpa using hs0
        have hrest := convertFeatures_cons_notSurvive now i f rest ws hs0' hok
        have hfneg : List.filter codeSurvives (f :: List.take j rest)
            = List.filter codeSurvives (List.take j rest) :=
          List.filter_cons_of_neg (by simp [hs0'])
        simp only [List.take_succ_cons, hfneg]
        rw [← harith]
        exact ih j (i + 1) ws pfs hrest (by simpa using hj) hq hp

/-- C5 (amended): for every input feature, the Converter resolves the
waypoint timestamp by Python-`or` precedence — the `timestamp` property
if its value is truthy, otherwise the `t` property if its value is
truthy, otherwise the synthetic `index * 10` seconds since the Unix
epoch, where `index` is the feature's zero-based position in the
original feature sequence including skipped features.  (The claim's
presence-based precedence fails for falsy values; see the
counterexample.) -/
theorem c5_timestamp_resolution_amended (now : ℚ) (doc fv : JVal)
    (fs : List JVal) (body : MapMatchBody) (j : ℕ)
    (pfs : List (String × JVal))
    (hfv : pyGet doc "features" = .ok fv)
    (hfs : pyIterate (if pyTruthy fv then fv else .jarr []) = .ok fs)
    (hok : geojson_to_mapmatch_body now doc = .ok body)
    (hj : j < fs.length)
    (hq : codeSurvives (fs.getD j .null) = true)
    (hp : codeProps (fs.getD j .null) = .jobj pfs) :
    (body.waypoints.getD ((fs.take j).filter codeSurvives).length default).timestamp
      = timestamp_to_iso now (amendedResolve (.jobj pfs) j) := by
  have hconv := geojson_body_waypoints now doc fv fs body hfv hfs hok
  have h := convertFeatures_timestamp now fs j 0 body.waypoints pfs hconv hj hq hp
  simpa using h

/-- C5 counterexample: a feature carrying both a `timestamp` property
(with value `0`) and a `t` property (with value `5`) produces the
rendering of `t`'s value, not of `timestamp`'s — presence-based
precedence, as claimed, is refuted. -/
theorem c5_timestamp_resolution_counterexample :
    geojson_to_mapmatch_body 0
        (.jobj [("features", .jarr
          [.jobj [("geometry", .jobj [("coordinates", .jarr [.jnum 1, .jnum 2])]),
                  ("properties", .jobj [("timestamp", .jnum 0), ("t", .jnum 5)])]])])
      = .ok ⟨"drive", [⟨"1970-01-01T00:00:05.000Z", (1, 2)⟩]⟩ ∧
    timestamp_to_iso 0 (.jnum 0) = "1970-01-01T00:00:00.000Z" ∧
    ("1970-01-01T00:00:05.000Z" : String) ≠ "1970-01-01T00:00:00.000Z" := by
  exact ⟨by decide, by decide, by decide⟩

/-- C5 witness: with a geometry-less feature at index 0 and a
property-less surviving feature at index 1, the waypoint timestamp is
the synthetic `1 * 10` seconds — the original index counts the skipped
feature. -/
theorem c5_timestamp_resolution_amended_witness :
    (((⟨"drive", [⟨"1970-01-01T00:00:10.000Z", (3, 4)⟩]⟩ : MapMatchBody).waypoints.getD
        ((([.jobj [],
            .jobj [("geometry", .jobj [("coordinates", .jarr [.jnum 3, .jnum 4])])]] :
              List JVal).take 1).filter codeSurvives).length
        default).timestamp)
      = timestamp_to_iso 0 (amendedResolve (.jobj []) 1) := by
  exact c5_timestamp_resolution_amended 0
      (.jobj [("features", .jarr
        [.jobj [],
         .jobj [("geometry", .jobj [("coordinates", .jarr [.jnum 3, .jnum 4])])]])])
      (.jarr [.jobj [],
         .jobj [("geometry", .jobj [("coordinates", .jarr [.jnum 3, .jnum 4])])]])
      [.jobj [],
         .jobj [("geometry", .jobj [("coordinates", .jarr [.jnum 3, .jnum 4])])]]
      ⟨"drive", [⟨"1970-01-01T00:00:10.000Z", (3, 4)⟩]⟩
      1 [] rfl rfl (by decide) (by norm_num) (by decide) rfl

lemma timestamp_to_iso_indep (n₁ n₂ : ℚ) (ts : JVal)
    (h : tsFallsBack ts = false) :
    timestamp_to_iso n₁ ts = timestamp_to_iso n₂ ts := by
  cases ts <;> simp [tsFallsBack] at h <;> rfl

lemma convertFeatures_now_indep (n₁ n₂ : ℚ) :
    ∀ (fs : List JVal) (i : ℕ),
      convertFeaturesUsesNow i fs = false →
      convertFeatures n₁ i fs = convertFeatures n₂ i fs := by
  intro fs
  induction fs with
  | nil => intro i _; rfl
  | cons f rest ih =>
    intro i h
    rw [convertFeatures, convertFeatures]
    rw [convertFeaturesUsesNow] at h
    cases hg : pyGet f "geometry" with
    | error e => simp only [hg]
    | ok g =>
      simp only [hg] at h ⊢
      cases hc : pyGet (if pyTruthy g then g else .jobj []) "coordinates" with
      | error e => simp only [hc]
      | ok coords =>
        simp only [hc] at h ⊢
        by_cases ht : pyTruthy coords = true
        case neg =>
          simp only [Bool.not_eq_true] at ht
          simp only [ht, Bool.false_eq_true, not_false_eq_true, if_true] at h ⊢
          exact ih (i + 1) h
        case pos =>
          simp only [ht, not_true_eq_false, if_false] at h ⊢
          cases hl : pyLen coords with
          | error e => simp only [hl]
          | ok n =>
            simp only [hl] at h ⊢
            by_cases hn : n < 2
            · simp only [if_pos hn] at h ⊢
              exact ih (i + 1) h
            · simp only [if_neg hn] at h ⊢
              cases hc0 : pyIdx coords 0 with
              | error e => simp only [hc0]
              | ok c0 =>
                simp only [hc0] at h ⊢
                cases hc1 : pyIdx coords 1 with
                | error e => simp only [hc1]
                | ok c1 =>
                  simp only [hc1] at h ⊢
                  cases hf0 : pyFloat c0 with
                  | error e => simp only [hf0]
                  | ok lon =>
                    simp only [hf0] at h ⊢
                    cases hf1 : pyFloat c1 with
                    | error e => simp only [hf1]
                    | ok lat =>
                      simp only [hf1] at h ⊢
                      cases hp : pyGet f "properties" with
                      | error e => simp only [hp]
                      | ok p =>
                        simp only [hp] at h ⊢
                        cases hts : tsSelect (if pyTruthy p then p else .jobj []) i with
                        | error e => simp only [hts]
                        | ok ts =>
                          simp only [hts] at h ⊢
                          rw [Bool.or_eq_false_iff] at h
                          rw [ih (i + 1) h.2,
                            timestamp_to_iso_indep n₁ n₂ ts h.1]

/-- C9 (amended): the Converter is deterministic — independent of the
current time — for every document in which no surviving feature's
resolved timestamp is of fallback type (i.e. every resolved timestamp
is a number, boolean or string); for such timestamps
`_timestamp_to_iso` never consults the clock.  (As originally stated —
including other-typed timestamps — the claim fails; see the
counterexample.) -/
theorem c9_conversion_deterministic_amended (doc : JVal) (n₁ n₂ : ℚ)
    (h : usesNowFallback doc = false) :
    geojson_to_mapmatch_body n₁ doc = geojson_to_mapmatch_body n₂ doc := by
  rw [geojson_to_mapmatch_body, geojson_to_mapmatch_body]
  rw [usesNowFallback] at h
  cases hfv : pyGet doc "features" with
  | error e => simp only [hfv]
  | ok fv =>
    simp only [hfv] at h ⊢
    cases hfs : pyIterate (if pyTruthy fv then fv else .jarr []) with
    | error e => simp only [hfs]
    | ok fs =>
      simp only [hfs] at h ⊢
      rw [convertFeatures_now_indep n₁ n₂ fs 0 h]

/-- C9 counterexample: a feature whose `timestamp` property is a
non-empty array (truthy, but neither number, boolean nor string) makes
the output depend on the current time: converting at time 0 and at
time 60 yields different waypoint timestamps, refuting determinism as
claimed. -/
theorem c9_conversion_deterministic_counterexample :
    geojson_to_mapmatch_body 0
        (.jobj [("features", .jarr
          [.jobj [("geometry", .jobj [("coordinates", .jarr [.jnum 1, .jnum 2])]),
                  ("properties", .jobj [("timestamp", .jarr [.jnum 1])])]])])
      = .ok ⟨"drive", [⟨"1970-01-01T00:00:00.000Z", (1, 2)⟩]⟩ ∧
    geojson_to_mapmatch_body 60
        (.jobj [("features", .jarr
          [.jobj [("geometry", .jobj [("coordinates", .jarr [.jnum 1, .jnum 2])]),
                  ("properties", .jobj [("timestamp", .jarr [.jnum 1])])]])])
      = .ok ⟨"drive", [⟨"1970-01-01T00:01:00.000Z", (1, 2)⟩]⟩ ∧
    ("1970-01-01T00:00:00.000Z" : String) ≠ "1970-01-01T00:01:00.000Z" := by
  exact ⟨by decide, by decide, by decide⟩

/-- C9 witness: a document with a numeric timestamp property never
consults the clock, so conversion at times 3 and 99 agrees. -/
theorem c9_conversion_deterministic_amended_witness :
    geojson_to_mapmatch_body 3
        (.jobj [("features", .jarr
          [.jobj [("geometry", .jobj [("coordinates", .jarr [.jnum 1, .jnum 2])]),
                  ("properties", .jobj [("timestamp", .jnum 1700000000)])]])])
      = geojson_to_mapmatch_body 99
        (.jobj [("features", .jarr
          [.jobj [("geometry", .jobj [("coordinates", .jarr [.jnum 1, .jnum 2])]),
                  ("properties", .jobj [("timestamp", .jnum 1700000000)])]])]) := by
  exact c9_conversion_deterministic_amended _ 3 99 (by decide)

-- Pipeline abort behaviour (C4) and the empty-waypoint stop (C8).
lemma batchLoop_writes_nil (world : ℕ → ℕ → PostResult) (urlBase : String)
    (total : ℕ) :
    ∀ (chunks : List (List Waypoint)) (bnum : ℕ),
      (batchLoop world urlBase total bnum chunks).2.writes = [] := by
  intro chunks
  induction chunks with
  | nil => intro bnum; rfl
  | cons c rest ih =>
    intro bnum
    simp only [batchLoop]
    cases hs : (send_to_api (world bnum) urlBase).result with
    | error e => simp [hs]
    | ok v =>
      simp only [hs]
      cases hr : response_to_features v with
      | error pe => simp [hr]
      | ok fs => simp [hr, ih (bnum + 1)]

lemma batchLoop_prefix_error (world : ℕ → ℕ → PostResult) (urlBase : String)
    (total : ℕ) (e : ApiError) :
    ∀ (chunks : List (List Waypoint)) (j bnum : ℕ),
      j < chunks.length →
      (∀ b, b < j → ∃ v fs,
        (send_to_api (world (bnum + b)) urlBase).result = .ok v ∧
        response_to_features v = .ok fs) →
      (send_to_api (world (bnum + j)) urlBase).result = .error e →
      (batchLoop world urlBase total bnum chunks).1 = .error (.api e) := by
  intro chunks
  induction chunks with
  | nil =>
    intro j bnum hj
    exact absurd hj (by simp)
  | cons c rest ih =>
    intro j bnum hj hpre hfail
    cases j with
    | zero =>
      rw [Nat.add_zero] at hfail
      simp only [batchLoop, hfail]
    | succ j =>
      obtain ⟨v, fs, hv, hfs⟩ := hpre 0 (by omega)
      rw [Nat.add_zero] at hv
      have hpre' : ∀ b, b < j → ∃ v fs,
          (send_to_api (world (bnum + 1 + b)) urlBase).result = .ok v ∧
          response_to_features v = .ok fs := by
        intro b hb
        have h := hpre (b + 1) (by omega)
        have harith : bnum + (b + 1) = bnum + 1 + b := by omega
        rwa [harith] at h
      have hfail' : (send_to_api (world (bnum + 1 + j)) urlBase).result = .error e := by
        have harith : bnum + (j + 1) = bnum + 1 + j := by omega
        rwa [harith] at hfail
      have hrec := ih j (bnum + 1) (by simpa using hj) hpre' hfail'
      simp only [batchLoop, hv, hfs, hrec, Except.map]

/-- C8: a run whose conversion yields no waypoints stops right after
the Converting step as a recoverable condition — an error-severity
"no valid points" message is emitted, no HTTP attempt is issued, no
file is written, and the run returns no output path. -/
theorem c8_no_waypoints_recoverable_stop (world : ℕ → ℕ → PostResult) (now : ℚ)
    (input_path api_url api_key output_dir : String) (doc : JVal)
    (body : MapMatchBody)
    (hok : geojson_to_mapmatch_body now doc = .ok body)
    (hempty : body.waypoints = []) :
    (run_pipeline (.ok doc) world now input_path api_url api_key output_dir).output
        = none ∧
    (run_pipeline (.ok doc) world now input_path api_url api_key output_dir).posts
        = 0 ∧
    (run_pipeline (.ok doc) world now input_path api_url api_key output_dir).batches
        = 0 ∧
    (run_pipeline (.ok doc) world now input_path api_url api_key output_dir).writes
        = [] ∧
    (LogMsg.noValidPoints, LogLevel.error)
      ∈ (run_pipeline (.ok doc) world now input_path api_url api_key
          output_dir).log := by
  obtain ⟨fv, fs, hfv, hfs, hconv⟩ := body_ok_parts now doc body hok
  obtain ⟨nf, hlen⟩ := iterate_ok_pyLen _ fs hfs
  have hisEmpty : body.waypoints.isEmpty = true := by
    rw [hempty]; rfl
  simp [run_pipeline, pipelineInner, hfv, hlen, hok, hisEmpty]

/-- C4: if some batch's submission fails fatally (any raised
`send_to_api` error: HTTP status failure, exhausted connection
retries, malformed response body, or another transport failure) after
the earlier batches succeeded, the whole run aborts — no file is
written at all, the error becomes an error-severity log line, and the
run returns no output path. -/
theorem c4_batch_failure_aborts_run (world : ℕ → ℕ → PostResult) (now : ℚ)
    (input_path api_url api_key output_dir : String) (doc : JVal)
    (body : MapMatchBody) (e : ApiError) (j : ℕ)
    (hok : geojson_to_mapmatch_body now doc = .ok body)
    (hne : body.waypoints ≠ [])
    (hj : j < (chunksOf MAX_WAYPOINTS_PER_REQUEST body.waypoints).length)
    (hpre : ∀ b, b < j → ∃ v fs,
      (send_to_api (world (1 + b))
          (urlBaseOf (build_request_url api_url api_key))).result = .ok v ∧
      response_to_features v = .ok fs)
    (hfail : (send_to_api (world (1 + j))
        (urlBaseOf (build_request_url api_url api_key))).result = .error e) :
    (run_pipeline (.ok doc) world now input_path api_url api_key output_dir).output
        = none ∧
    (run_pipeline (.ok doc) world now input_path api_url api_key output_dir).writes
        = [] ∧
    (errorDispatch (.api e), LogLevel.error)
      ∈ (run_pipeline (.ok doc) world now input_path api_url api_key
          output_dir).log := by
  obtain ⟨fv, fs, hfv, hfs, hconv⟩ := body_ok_parts now doc body hok
  obtain ⟨nf, hlen⟩ := iterate_ok_pyLen _ fs hfs
  have hisEmpty : body.waypoints.isEmpty = false := by
    cases hw : body.waypoints with
    | nil => exact absurd hw hne
    | cons a l => rfl
  have hloop := batchLoop_prefix_error world
      (urlBaseOf (build_request_url api_url api_key))
      ((body.waypoints.length + MAX_WAYPOINTS_PER_REQUEST - 1) /
        MAX_WAYPOINTS_PER_REQUEST) e
      (chunksOf MAX_WAYPOINTS_PER_REQUEST body.waypoints) j 1 hj hpre hfail
  have hwr := batchLoop_writes_nil world
      (urlBaseOf (build_request_url api_url api_key))
      ((body.waypoints.length + MAX_WAYPOINTS_PER_REQUEST - 1) /
        MAX_WAYPOINTS_PER_REQUEST)
      (chunksOf MAX_WAYPOINTS_PER_REQUEST body.waypoints) 1
  simp [run_pipeline, pipelineInner, hfv, hlen, hok, hisEmpty, hloop, hwr]

lemma send_to_api_result_of_http (world : ℕ → PostResult) (urlBase : String)
    (st : ℕ) (body : String) (mj : Option JVal)
    (hw : world 1 = .response st body mj) (h4 : 400 ≤ st) (h6 : st < 600) :
    (send_to_api world urlBase).result = .error (.httpError st body) := by
  have hst : 400 ≤ st ∧ st < 600 := ⟨h4, h6⟩
  simp only [send_to_api]
  rw [sendFrom, hw]
  simp [hst]

/-- C4 witness: a one-waypoint run whose single batch gets a 500
response aborts with no write and an error log line. -/
theorem c4_batch_failure_aborts_run_witness :
    (run_pipeline
        (.ok (.jobj [("features", .jarr
          [.jobj [("geometry", .jobj [("coordinates", .jarr [.jnum 1, .jnum 2])])]])]))
        (fun _ _ => .response 500 "oom" none) 0 "in.geojson" "http://x" "k" "").output
      = none ∧
    (run_pipeline
        (.ok (.jobj [("features", .jarr
          [.jobj [("geometry", .jobj [("coordinates", .jarr [.jnum 1, .jnum 2])])]])]))
        (fun _ _ => .response 500 "oom" none) 0 "in.geojson" "http://x" "k" "").writes
      = [] := by
  have h := c4_batch_failure_aborts_run
      (fun _ _ => .response 500 "oom" none) 0 "in.geojson" "http://x" "k" ""
      (.jobj [("features", .jarr
        [.jobj [("geometry", .jobj [("coordinates", .jarr [.jnum 1, .jnum 2])])]])])
      ⟨"drive", [⟨"1970-01-01T00:00:00.000Z", (1, 2)⟩]⟩
      (.httpError 500 "oom") 0
      (by decide) (by decide) (by decide)
      (by intro b hb; exact absurd hb (Nat.not_lt_zero b))
      (send_to_api_result_of_http _ _ 500 "oom" none rfl (by norm_num) (by norm_num))
  exact ⟨h.1, h.2.1⟩

/-- C8 witness: an input whose single feature has no geometry converts
to zero waypoints; the run returns no path, issues no HTTP attempt and
writes nothing. -/
theorem c8_no_waypoints_recoverable_stop_witness :
    (run_pipeline (.ok (.jobj [("features", .jarr [.jobj []])]))
        (fun _ _ => .connError "down") 0 "in.geojson" "http://x" "k" "").output
      = none ∧
    (run_pipeline (.ok (.jobj [("features", .jarr [.jobj []])]))
        (fun _ _ => .connError "down") 0 "in.geojson" "http://x" "k" "").posts
      = 0 ∧
    (run_pipeline (.ok (.jobj [("features", .jarr [.jobj []])]))
        (fun _ _ => .connError "down") 0 "in.geojson" "http://x" "k" "").writes
      = [] := by
  have h := c8_no_waypoints_recoverable_stop
      (fun _ _ => .connError "down") 0 "in.geojson" "http://x" "k" ""
      (.jobj [("features", .jarr [.jobj []])])
      ⟨"drive", []⟩ (by decide) rfl
  exact ⟨h.1, h.2.1, h.2.2.2.1⟩
